import Mathlib

/-
Verification of the retry decorator in src/retry_decorator.py.

The decorator wraps a fallible operation.  Its `retry` entry point performs a
dynamic sanity check on its numeric options (wrong-typed values are replaced by
module constants), and the produced `wrapper` runs the loop

    request_count = 1
    while request_count < max_retry:
        try: return func(...)
        except exceptions as e:
            delay = min(max_backoff, backoff_factor * 2 ** request_count)
            delay = (delay / 2) + uniform(0, delay / 2)
            sleep(delay); request_count += 1
    return func(...)

Embedding choices:
* Python floats and the results of `random.uniform` are modelled as exact
  rationals; `random()` draws are an explicit stream `rand : ℕ → ℚ` of values
  in `[0, 1)`, indexed by the attempt number that consumed them, and
  `uniform a b r = a + (b - a) * r` follows CPython's definition.
* The wrapped operation is `op : ℕ → Except ε α`, giving the outcome of its
  n-th invocation (1-based, matching `request_count` at the moment of the
  call); the `except exceptions` clause is a boolean classifier over the
  raised value.
* The `while` loop is modelled by recursion on the remaining permitted number
  of loop iterations, `(max_retry - 1).toNat`, with `max_retry : ℤ` so that
  non-positive retry budgets are representable.
* A run records the propagated outcome, the list of slept (jittered) delays in
  order, and how many times the operation was invoked.
* Dynamically typed option values passed to `retry` are modelled by `PyVal`;
  `isinstance(x, int)` accepts Python bools, `isinstance(x, float)` does not
  accept ints.
* Boundary behaviour of lines 68-69 depends on CPython's actual number
  semantics, not on real arithmetic: `2 ** request_count` is an exact
  arbitrary-precision int, every float operation rounds its exact result to
  IEEE binary64 (round-to-nearest, ties-to-even, 53-bit significand), and
  converting an int that rounds to `2 ^ 1024` or beyond to a float raises
  OverflowError.  `roundB64` models that rounding exactly on rationals
  (finite normal range; subnormals and the finiteness bound are irrelevant at
  the magnitudes used), `applyJitterF` is line 69 and `computedDelayF` line 68
  under it, each intermediate operation rounded, with `none` for the
  OverflowError of the int-to-float conversion.
-/

namespace RetryDecorator

/-- A dynamically typed Python value, as inspected by the sanity check of
`retry` (only the shapes the check distinguishes are needed). -/
inductive PyVal where
  | pyFloat : ℚ → PyVal
  | pyInt : ℤ → PyVal
  | pyBool : Bool → PyVal
  | pyStr : String → PyVal
  | pyNone : PyVal
deriving DecidableEq

/-- Module constant `BACKOFF_FACTOR = 4.5`. -/
def BACKOFF_FACTOR : ℚ := 9 / 2

/-- Module constant `MAX_BACKOFF = 20`. -/
def MAX_BACKOFF : ℤ := 20

/-- Module constant `MAX_RETRY = 3`. -/
def MAX_RETRY : ℤ := 3

/-- `isinstance(v, float)`: Python ints and bools are not floats. -/
def isPyFloat : PyVal → Bool
  | .pyFloat _ => true
  | _ => false

/-- `isinstance(v, int)`: Python bools are ints. -/
def isPyIntLike : PyVal → Bool
  | .pyInt _ => true
  | .pyBool _ => true
  | _ => false

/-- Sanity check for `backoff_factor`: `if not isinstance(backoff_factor,
float): backoff_factor = MAX_BACKOFF`, then the surviving value is used as a
number. -/
def sanitizeBackoffFactor : PyVal → ℚ
  | .pyFloat x => x
  | _ => (MAX_BACKOFF : ℚ)

/-- Sanity check for `max_backoff`: `if not isinstance(max_backoff, int):
max_backoff = MAX_BACKOFF` (bools pass the isinstance check with their numeric
value). -/
def sanitizeMaxBackoff : PyVal → ℤ
  | .pyInt n => n
  | .pyBool b => if b then 1 else 0
  | _ => MAX_BACKOFF

/-- Sanity check for `max_retry`: `if not isinstance(max_retry, int):
max_retry = MAX_RETRY` (bools pass the isinstance check with their numeric
value). -/
def sanitizeMaxRetry : PyVal → ℤ
  | .pyInt n => n
  | .pyBool b => if b then 1 else 0
  | _ => MAX_RETRY

/-- The configuration captured by the decorator after the sanity check. -/
structure RetryConfig where
  exceptions : PyVal
  backoffFactorVal : ℚ
  maxRetryVal : ℤ
  maxBackoffVal : ℤ
deriving DecidableEq

/-- `retry(exceptions, backoff_factor, max_retry, max_backoff)` up to and
including its sanity-check block: the numeric options are sanitized, the
`exceptions` argument is captured untouched. -/
def retryConfig (exc bf mr mb : PyVal) : RetryConfig :=
  { exceptions := exc
    backoffFactorVal := sanitizeBackoffFactor bf
    maxRetryVal := sanitizeMaxRetry mr
    maxBackoffVal := sanitizeMaxBackoff mb }

/-- CPython `random.uniform(a, b) = a + (b - a) * random()`, with `r` the
`random()` draw. -/
def uniform (a b r : ℚ) : ℚ := a + (b - a) * r

/-- Line 68: `delay = min(max_backoff, backoff_factor * 2 ** request_count)`. -/
def computedDelay (maxBackoff backoffFactor : ℚ) (requestCount : ℕ) : ℚ :=
  min maxBackoff (backoffFactor * 2 ^ requestCount)

/-- Line 69: `delay = (delay / 2) + uniform(0, delay / 2)`, with `r` the
`random()` draw consumed by `uniform`. -/
def applyJitter (delay r : ℚ) : ℚ := delay / 2 + uniform 0 (delay / 2) r

/-- The delay slept on the attempt numbered `requestCount`. -/
def jitteredDelay (maxBackoff backoffFactor : ℚ) (requestCount : ℕ) (r : ℚ) : ℚ :=
  applyJitter (computedDelay maxBackoff backoffFactor requestCount) r

/-- Round a scaled significand to the nearest integer, ties to even. -/
def roundHalfEven (q : ℚ) : ℤ :=
  if q - ⌊q⌋ < 1 / 2 then ⌊q⌋
  else if 1 / 2 < q - ⌊q⌋ then ⌊q⌋ + 1
  else if ⌊q⌋ % 2 = 0 then ⌊q⌋ else ⌊q⌋ + 1

/-- IEEE binary64 round-to-nearest-even of an exact rational value: the
significand is rounded to 53 bits at the value's binade (finite normal range;
subnormal underflow and the overflow-to-infinity bound are not modelled here —
they are irrelevant at the magnitudes these theorems evaluate). -/
def roundB64 (x : ℚ) : ℚ :=
  if x = 0 then 0
  else if x < 0 then
    -((roundHalfEven (-x * 2 ^ (52 - Int.log 2 (-x))) : ℚ) * 2 ^ (Int.log 2 (-x) - 52))
  else (roundHalfEven (x * 2 ^ (52 - Int.log 2 x)) : ℚ) * 2 ^ (Int.log 2 x - 52)

/-- Line 69 under CPython float semantics, every operation rounding its exact
result to binary64: `delay / 2`, then `uniform(0, h) = 0 + (h - 0) * r`
operation by operation, then the final addition. -/
def applyJitterF (d r : ℚ) : ℚ :=
  let h := roundB64 (d / 2)
  let s := roundB64 (h - 0)
  let m := roundB64 (s * r)
  let u := roundB64 (0 + m)
  roundB64 (h + u)

/-- Line 68 under CPython semantics: `2 ** request_count` is an exact
arbitrary-precision int; evaluating `backoff_factor * <int>` first converts
the int to a binary64 double, which raises OverflowError (modelled as `none`)
when the rounded value reaches `2 ^ 1024`; the float product then rounds (a
product overflowing to infinity is discarded by the min anyway), and Python's
`min` of two floats involves no further arithmetic. -/
def computedDelayF (maxBackoff backoffFactor : ℚ) (requestCount : ℕ) : Option ℚ :=
  let p := roundB64 ((2 : ℚ) ^ requestCount)
  if p < 2 ^ (1024 : ℕ) then some (min maxBackoff (roundB64 (backoffFactor * p))) else none

/-- Observable trace of one invocation of the wrapped function: the propagated
outcome, the slept delays in order, and the number of calls to `func`. -/
structure RunResult (ε α : Type) where
  outcome : Except ε α
  delays : List ℚ
  calls : ℕ

variable {ε α : Type}

/-- The `while request_count < max_retry` loop of `wrapper`, by recursion on
the number of loop iterations still permitted (`fuel`); `requestCount` is the
current value of `request_count`.  When the loop exits (`fuel = 0`) the final
`return func(*args, **kwargs)` runs unguarded: its outcome propagates whatever
it is. -/
def runRetry (cl : ε → Bool) (op : ℕ → Except ε α) (maxBackoff backoffFactor : ℚ)
    (rand : ℕ → ℚ) : ℕ → ℕ → RunResult ε α
  | requestCount, 0 => ⟨op requestCount, [], 1⟩
  | requestCount, fuel + 1 =>
    match op requestCount with
    | .ok a => ⟨.ok a, [], 1⟩
    | .error e =>
      if cl e then
        let d := jitteredDelay maxBackoff backoffFactor requestCount (rand requestCount)
        let rest := runRetry cl op maxBackoff backoffFactor rand (requestCount + 1) fuel
        ⟨rest.outcome, d :: rest.delays, rest.calls + 1⟩
      else
        ⟨.error e, [], 1⟩

/-- `wrapper(*args, **kwargs)`: `request_count = 1`, then the loop; the loop
body can run at most `(maxRetry - 1).toNat` times. -/
def wrapper (cl : ε → Bool) (op : ℕ → Except ε α) (maxBackoff backoffFactor : ℚ)
    (maxRetry : ℤ) (rand : ℕ → ℚ) : RunResult ε α :=
  runRetry cl op maxBackoff backoffFactor rand 1 (maxRetry - 1).toNat

/-- A decorated call: the wrapper runs with the configuration produced by
`retry`; `matcher` is Python's `isinstance`-based `except` test, applied to the
captured `exceptions` value. -/
def runDecorated (cfg : RetryConfig) (matcher : PyVal → ε → Bool)
    (op : ℕ → Except ε α) (rand : ℕ → ℚ) : RunResult ε α :=
  wrapper (matcher cfg.exceptions) op (cfg.maxBackoffVal : ℚ) cfg.backoffFactorVal
    cfg.maxRetryVal rand

/-- Fixture: an operation whose n-th invocation fails with the value `n`. -/
def constFailOp (n : ℕ) : Except ℕ ℕ := Except.error n

/-- Fixture: an operation failing (retryably) on its first two invocations and
succeeding with `99` from the third on. -/
def failTwiceOp (n : ℕ) : Except ℕ ℕ := if n < 3 then Except.error n else Except.ok 99

/-- Fixture: a classifier accepting every failure. -/
def alwaysTrue : ℕ → Bool := fun _ => true

/-- Fixture: a classifier accepting no failure. -/
def neverRetry : ℕ → Bool := fun _ => false

/-- Fixture: a deterministic random stream, always drawing `0`. -/
def zeroRand : ℕ → ℚ := fun _ => 0

/-- Fixture: an operation failing with the value `7` on every invocation. -/
def failSevenOp : ℕ → Except ℕ ℕ := fun _ => Except.error 7

/- ---------------------------------------------------------------- theorems -/

/-- If the current attempt succeeds, the run (at any remaining fuel) ends
immediately with that value, no delay, one call. -/
theorem runRetry_ok (cl : ε → Bool) (op : ℕ → Except ε α) (mb bf : ℚ)
    (rand : ℕ → ℚ) (rc fuel : ℕ) {a : α} (h : op rc = Except.ok a) :
    runRetry cl op mb bf rand rc fuel = ⟨Except.ok a, [], 1⟩ := by
  cases fuel <;> simp [runRetry, h]

/-- If the current attempt fails non-retryably while the loop is still
running, the run ends immediately with that error, no delay, one call. -/
theorem runRetry_nonretryable (cl : ε → Bool) (op : ℕ → Except ε α) (mb bf : ℚ)
    (rand : ℕ → ℚ) (rc fuel : ℕ) {e : ε} (h : op rc = Except.error e)
    (hc : cl e = false) :
    runRetry cl op mb bf rand rc (fuel + 1) = ⟨Except.error e, [], 1⟩ := by
  simp [runRetry, h, hc]

/-- When every attempt fails retryably, the loop spends all its fuel, sleeping
once per iteration at consecutive attempt numbers, and the final unguarded
call's failure propagates. -/
theorem runRetry_allFail (cl : ε → Bool) (f : ℕ → ε) (op : ℕ → Except ε α)
    (mb bf : ℚ) (rand : ℕ → ℚ)
    (hop : ∀ n, op n = Except.error (f n)) (hcl : ∀ n, cl (f n) = true) :
    ∀ fuel rc, runRetry cl op mb bf rand rc fuel =
      ⟨Except.error (f (rc + fuel)),
       (List.range fuel).map (fun i => jitteredDelay mb bf (rc + i) (rand (rc + i))),
       fuel + 1⟩ := by
  intro fuel
  induction fuel with
  | zero => intro rc; simp [runRetry, hop rc]
  | succ n ih =>
    intro rc
    have hstep : runRetry cl op mb bf rand rc (n + 1) =
        ⟨(runRetry cl op mb bf rand (rc + 1) n).outcome,
         jitteredDelay mb bf rc (rand rc) :: (runRetry cl op mb bf rand (rc + 1) n).delays,
         (runRetry cl op mb bf rand (rc + 1) n).calls + 1⟩ := by
      simp [runRetry, hop rc, hcl rc]
    rw [hstep, ih (rc + 1)]
    have hidx : rc + 1 + n = rc + (n + 1) := by omega
    have hlist : (List.range (n + 1)).map
          (fun i => jitteredDelay mb bf (rc + i) (rand (rc + i))) =
        jitteredDelay mb bf rc (rand rc) ::
          (List.range n).map (fun i => jitteredDelay mb bf (rc + 1 + i) (rand (rc + 1 + i))) := by
      rw [List.range_succ_eq_map, List.map_cons, List.map_map]
      simp only [List.cons.injEq]
      constructor
      · simp
      · refine List.map_congr_left ?_
        intro i _
        have h : rc + (i + 1) = rc + 1 + i := by omega
        simp [Function.comp, Nat.succ_eq_add_one, h]
    rw [hidx] at *
    simp [hlist]

/-- The number of calls always exceeds the number of slept delays by one, and
the loop body runs at most `fuel` times. -/
theorem runRetry_calls_len (cl : ε → Bool) (op : ℕ → Except ε α) (mb bf : ℚ)
    (rand : ℕ → ℚ) :
    ∀ fuel rc, (runRetry cl op mb bf rand rc fuel).calls
        = (runRetry cl op mb bf rand rc fuel).delays.length + 1
      ∧ (runRetry cl op mb bf rand rc fuel).delays.length ≤ fuel := by
  intro fuel
  induction fuel with
  | zero => intro rc; simp [runRetry]
  | succ n ih =>
    intro rc
    cases hop : op rc with
    | ok a => simp [runRetry, hop]
    | error e =>
      by_cases hcl : cl e
      · have h := ih (rc + 1)
        simp [runRetry, hop, hcl]
        omega
      · simp [runRetry, hop, hcl]

/-- A positive value with `2 ^ e ≤ x < 2 ^ (e + 1)` has binade exponent `e`. -/
theorem log2_eq_of {x : ℚ} {e : ℤ} (h1 : (2 : ℚ) ^ e ≤ x) (h2 : x < (2 : ℚ) ^ (e + 1)) :
    Int.log 2 x = e := by
  have hx : 0 < x := lt_of_lt_of_le (by positivity) h1
  have ha : (2 : ℚ) ^ Int.log 2 x ≤ x := Int.zpow_log_le_self (by norm_num) hx
  have hb : x < (2 : ℚ) ^ (Int.log 2 x + 1) := Int.lt_zpow_succ_log_self (by norm_num) x
  have h3 : Int.log 2 x < e + 1 :=
    (zpow_lt_zpow_iff_right₀ (by norm_num : (1 : ℚ) < 2)).mp (lt_of_le_of_lt ha h2)
  have h4 : e < Int.log 2 x + 1 :=
    (zpow_lt_zpow_iff_right₀ (by norm_num : (1 : ℚ) < 2)).mp (lt_of_le_of_lt h1 hb)
  omega

/-- Unfold `roundB64` at a positive value whose binade is known. -/
theorem roundB64_eq_of {x : ℚ} {e : ℤ} (h1 : (2 : ℚ) ^ e ≤ x) (h2 : x < (2 : ℚ) ^ (e + 1)) :
    roundB64 x = (roundHalfEven (x * 2 ^ (52 - e)) : ℚ) * 2 ^ (e - 52) := by
  have hx : 0 < x := lt_of_lt_of_le (by positivity) h1
  rw [roundB64, if_neg hx.ne', if_neg (not_lt.mpr hx.le), log2_eq_of h1 h2]

/-- Rounding an integer-valued significand is the identity. -/
theorem roundHalfEven_intCast (n : ℤ) : roundHalfEven (n : ℚ) = n := by
  simp [roundHalfEven, Int.floor_intCast]

/-- A value whose 53-bit scaled significand is an exact integer is a binary64
double: rounding it is the identity. -/
theorem roundB64_exact {x : ℚ} {e n : ℤ} (h1 : (2 : ℚ) ^ e ≤ x) (h2 : x < (2 : ℚ) ^ (e + 1))
    (hn : x * 2 ^ (52 - e) = (n : ℚ)) : roundB64 x = x := by
  rw [roundB64_eq_of h1 h2, hn, roundHalfEven_intCast, ← hn, mul_assoc, ← zpow_add₀
    (by norm_num : (2 : ℚ) ≠ 0)]
  norm_num

/-- Line 69 in binary64: with computed delay `3.0` and the largest `random()`
output `(2 ^ 53 - 1) / 2 ^ 53`, the multiplication rounds `uniform(0, 1.5)` to
`1.5 - 2 ^ -52` and the final addition rounds the exact sum `3 - 2 ^ -52`
(a tie between neighbouring doubles) up to even, giving exactly `3.0`. -/
theorem applyJitterF_three_endpoint : applyJitterF 3 ((2 ^ 53 - 1) / 2 ^ 53) = 3 := by
  have e1 : roundB64 ((3 : ℚ) / 2) = 3 / 2 := by
    refine roundB64_exact (e := 0) (n := 6755399441055744) (by norm_num) (by norm_num) ?_
    norm_num
  have e3 : roundB64 (3 / 2 * ((2 ^ 53 - 1) / 2 ^ 53) : ℚ) = 3 / 2 - 1 / 2 ^ 52 := by
    rw [roundB64_eq_of (e := 0) (by norm_num) (by norm_num)]
    have hm : (3 / 2 * ((2 ^ 53 - 1) / 2 ^ 53) : ℚ) * 2 ^ ((52 : ℤ) - 0)
        = (27021597764222973 : ℚ) / 4 := by norm_num
    have hf : ⌊(27021597764222973 : ℚ) / 4⌋ = 6755399441055743 := by
      rw [Int.floor_eq_iff]
      constructor <;> norm_num
    have hr : roundHalfEven ((27021597764222973 : ℚ) / 4) = 6755399441055743 := by
      rw [roundHalfEven, hf]
      norm_num
    rw [hm, hr]
    norm_num
  have e4 : roundB64 (3 / 2 - 1 / 2 ^ 52 : ℚ) = 3 / 2 - 1 / 2 ^ 52 := by
    refine roundB64_exact (e := 0) (n := 6755399441055743) (by norm_num) (by norm_num) ?_
    norm_num
  have e5 : roundB64 (3 - 1 / 2 ^ 52 : ℚ) = 3 := by
    rw [roundB64_eq_of (e := 1) (by norm_num) (by norm_num)]
    have hm : (3 - 1 / 2 ^ 52 : ℚ) * 2 ^ ((52 : ℤ) - 1) = (13510798882111487 : ℚ) / 2 := by
      norm_num
    have hf : ⌊(13510798882111487 : ℚ) / 2⌋ = 6755399441055743 := by
      rw [Int.floor_eq_iff]
      constructor <;> norm_num
    have hr : roundHalfEven ((13510798882111487 : ℚ) / 2) = 6755399441055744 := by
      rw [roundHalfEven, hf]
      norm_num
    rw [hm, hr]
    norm_num
  show roundB64 (roundB64 (3 / 2) +
      roundB64 (0 + roundB64 (roundB64 (roundB64 (3 / 2) - 0) * ((2 ^ 53 - 1) / 2 ^ 53)))) = 3
  rw [e1, sub_zero, e1, e3, zero_add, e4,
    show (3 : ℚ) / 2 + (3 / 2 - 1 / 2 ^ 52) = 3 - 1 / 2 ^ 52 by ring, e5]

/-- C1: for every positive backoffFactor and maxBackoff and every attempt
number, the delay computed before jitter is
`min(maxBackoff, backoffFactor * 2 ^ attemptNumber)`; in a run whose attempts
all fail retryably, the i-th slept delay (0-based `i`) is the jitter of the
pre-jitter delay at attempt number `i + 1`, so attempt numbering starts at 1
and the first retry's pre-jitter delay is `min(maxBackoff, backoffFactor * 2)`. -/
theorem delay_before_jitter_c1 (mb bf : ℚ) (hbf : 0 < bf) (hmb : 0 < mb)
    (n : ℕ) (cl : ε → Bool) (f : ℕ → ε) (op : ℕ → Except ε α)
    (hop : ∀ k, op k = Except.error (f k)) (hcl : ∀ k, cl (f k) = true)
    (mr : ℤ) (rand : ℕ → ℚ) :
    computedDelay mb bf n = min mb (bf * 2 ^ n)
    ∧ computedDelay mb bf 1 = min mb (bf * 2)
    ∧ (wrapper cl op mb bf mr rand).delays
        = (List.range (mr - 1).toNat).map
            (fun i => applyJitter (min mb (bf * 2 ^ (i + 1))) (rand (i + 1))) := by
  refine ⟨rfl, by simp [computedDelay], ?_⟩
  rw [wrapper, runRetry_allFail cl f op mb bf rand hop hcl]
  refine List.map_congr_left ?_
  intro i _
  have h : 1 + i = i + 1 := by omega
  simp [jitteredDelay, computedDelay, h]

/-- C1 witness: backoffFactor 3, maxBackoff 20, maxRetry 3, attempt number 4,
zero randomness, an operation failing retryably on every attempt. -/
theorem delay_before_jitter_c1_witness :
    computedDelay 20 3 4 = min 20 (3 * 2 ^ 4)
    ∧ computedDelay 20 3 1 = min 20 (3 * 2)
    ∧ (wrapper alwaysTrue constFailOp 20 3 3 zeroRand).delays
        = (List.range ((3 : ℤ) - 1).toNat).map
            (fun i => applyJitter (min 20 (3 * 2 ^ (i + 1))) (zeroRand (i + 1))) :=
  delay_before_jitter_c1 20 3 (by norm_num) (by norm_num) 4 alwaysTrue (fun k => k)
    constFailOp (fun _ => rfl) (fun _ => rfl) 3 zeroRand

/-- C2 counterexample: the real program computes line 69 in IEEE binary64, and
there the jittered delay is not always strictly below the computed delay `D`:
with `D = 3.0` and the legal `random()` output `(2 ^ 53 - 1) / 2 ^ 53`, the
slept delay rounds to exactly `3.0 = D`, refuting the strict upper bound. -/
theorem jitter_reaches_bound_c2_counterexample :
    applyJitterF 3 ((2 ^ 53 - 1) / 2 ^ 53) = 3
    ∧ ¬ (applyJitterF 3 ((2 ^ 53 - 1) / 2 ^ 53) < 3) :=
  ⟨applyJitterF_three_endpoint, by
    rw [applyJitterF_three_endpoint]
    exact lt_irrefl 3⟩

/-- C2 (amended): the jittered delay equals `D / 2` plus the uniform draw,
which lies in `[0, D / 2]`; in exact arithmetic the result lies in the
half-open range `[D / 2, D)` and is never negative, but under the binary64
rounding of line 69 the strict upper bound fails: the slept delay can round to
exactly `D` (computed delay `3.0`, `random() = (2 ^ 53 - 1) / 2 ^ 53`), so
only `[D / 2, D]` is guaranteed for the program. -/
theorem jitter_half_range_c2 (d r : ℚ) (hd : 0 < d) (hr0 : 0 ≤ r) (hr1 : r < 1) :
    (applyJitter d r = d / 2 + (d / 2) * r
      ∧ 0 ≤ (d / 2) * r ∧ (d / 2) * r ≤ d / 2
      ∧ d / 2 ≤ applyJitter d r ∧ applyJitter d r < d ∧ 0 ≤ applyJitter d r)
    ∧ applyJitterF 3 ((2 ^ 53 - 1) / 2 ^ 53) = 3 := by
  have heq : applyJitter d r = d / 2 + (d / 2) * r := by
    simp [applyJitter, uniform]
  have h0 : 0 ≤ (d / 2) * r := by positivity
  have h1 : (d / 2) * r ≤ d / 2 := by nlinarith
  refine ⟨⟨heq, h0, h1, ?_, ?_, ?_⟩, applyJitterF_three_endpoint⟩
  · rw [heq]; linarith
  · rw [heq]; nlinarith
  · rw [heq]; linarith

/-- C2 witness: computed delay 4, random draw 1/3 for the exact-range part. -/
theorem jitter_half_range_c2_witness :
    (applyJitter 4 (1 / 3) = 4 / 2 + (4 / 2) * (1 / 3)
      ∧ 0 ≤ ((4 : ℚ) / 2) * (1 / 3) ∧ ((4 : ℚ) / 2) * (1 / 3) ≤ 4 / 2
      ∧ (4 : ℚ) / 2 ≤ applyJitter 4 (1 / 3) ∧ applyJitter 4 (1 / 3) < 4
      ∧ (0 : ℚ) ≤ applyJitter 4 (1 / 3))
    ∧ applyJitterF 3 ((2 ^ 53 - 1) / 2 ^ 53) = 3 :=
  jitter_half_range_c2 4 (1 / 3) (by norm_num) (by norm_num) (by norm_num)

/-- C3: with maxRetry = 3 and the first two attempts failing retryably, the
operation is invoked exactly 3 times, two delays are slept, and the third
invocation's failure propagates unchanged — no hypothesis constrains how the
classifier treats it, so it propagates even when it classifies as retryable. -/
theorem three_attempts_exhaustion_c3 (cl : ε → Bool) (op : ℕ → Except ε α)
    (mb bf : ℚ) (rand : ℕ → ℚ) (e1 e2 e3 : ε)
    (h1 : op 1 = Except.error e1) (hc1 : cl e1 = true)
    (h2 : op 2 = Except.error e2) (hc2 : cl e2 = true)
    (h3 : op 3 = Except.error e3) :
    wrapper cl op mb bf 3 rand =
      ⟨Except.error e3,
       [jitteredDelay mb bf 1 (rand 1), jitteredDelay mb bf 2 (rand 2)], 3⟩ := by
  have hfuel : ((3 : ℤ) - 1).toNat = 2 := rfl
  rw [wrapper, hfuel]
  simp [runRetry, h1, hc1, h2, hc2, h3]

/-- C3 witness: a classifier accepting every failure and an operation failing
on every attempt; the third failure (value 3) propagates although retryable. -/
theorem three_attempts_exhaustion_c3_witness :
    wrapper alwaysTrue constFailOp 20 3 3 zeroRand =
      ⟨Except.error 3,
       [jitteredDelay 20 3 1 (zeroRand 1), jitteredDelay 20 3 2 (zeroRand 2)], 3⟩ :=
  three_attempts_exhaustion_c3 alwaysTrue constFailOp 20 3 zeroRand 1 2 3
    rfl rfl rfl rfl rfl

/-- C4: a failure the classifier rejects propagates immediately and unchanged:
from any attempt position while the loop still runs, the run ends with that
error, zero delays and no further calls; and a wrapped call whose first
attempt fails non-retryably ends the same way even with maxRetry > 1. -/
theorem nonretryable_immediate_c4 (cl : ε → Bool) (op : ℕ → Except ε α)
    (mb bf : ℚ) (rand : ℕ → ℚ) (rc fuel : ℕ) (e : ε) (mr : ℤ)
    (hrc : op rc = Except.error e) (h1 : op 1 = Except.error e)
    (hc : cl e = false) (hmr : 1 < mr) :
    runRetry cl op mb bf rand rc (fuel + 1) = ⟨Except.error e, [], 1⟩
    ∧ wrapper cl op mb bf mr rand = ⟨Except.error e, [], 1⟩ := by
  refine ⟨runRetry_nonretryable cl op mb bf rand rc fuel hrc hc, ?_⟩
  obtain ⟨k, hk⟩ : ∃ k, (mr - 1).toNat = k + 1 := ⟨(mr - 1).toNat - 1, by omega⟩
  rw [wrapper, hk]
  exact runRetry_nonretryable cl op mb bf rand 1 k h1 hc

/-- C4 witness: a classifier accepting nothing, an operation always failing
with value 7, maxRetry 3: the failure propagates at once, no delay, one call. -/
theorem nonretryable_immediate_c4_witness :
    runRetry neverRetry failSevenOp 20 3 zeroRand 5 (2 + 1) = ⟨Except.error 7, [], 1⟩
    ∧ wrapper neverRetry failSevenOp 20 3 3 zeroRand = ⟨Except.error 7, [], 1⟩ :=
  nonretryable_immediate_c4 neverRetry failSevenOp 20 3 zeroRand 5 2 7 3
    rfl rfl rfl (by norm_num)

/-- C5: with maxRetry = 1, and likewise any maxRetry ≤ 0, the loop body never
executes: exactly one unguarded attempt is made, no delay is slept, and that
attempt's outcome propagates directly. -/
theorem single_attempt_c5 (cl : ε → Bool) (op : ℕ → Except ε α) (mb bf : ℚ)
    (rand : ℕ → ℚ) (mr : ℤ) (hmr : mr ≤ 1) :
    wrapper cl op mb bf mr rand = ⟨op 1, [], 1⟩ := by
  have h0 : (mr - 1).toNat = 0 := by omega
  rw [wrapper, h0, runRetry]

/-- C5 witness: maxRetry 0 with an always-failing retryable operation — one
call, no delay, failure propagates. -/
theorem single_attempt_c5_witness :
    wrapper alwaysTrue constFailOp 20 3 0 zeroRand = ⟨Except.error 1, [], 1⟩ :=
  single_attempt_c5 alwaysTrue constFailOp 20 3 zeroRand 0 (by norm_num)

/-- C6: a successful attempt returns its result immediately with no further
attempts, from any point of the run; and with maxRetry ≥ 3, an operation that
fails retryably twice then succeeds returns the success value with exactly two
delays slept and three calls. -/
theorem success_immediate_c6 (cl : ε → Bool) (op : ℕ → Except ε α)
    (mb bf : ℚ) (rand : ℕ → ℚ) (rc fuel : ℕ) (mr : ℤ) (e1 e2 : ε) (a b : α)
    (hrc : op rc = Except.ok b) (hmr : 3 ≤ mr)
    (h1 : op 1 = Except.error e1) (hc1 : cl e1 = true)
    (h2 : op 2 = Except.error e2) (hc2 : cl e2 = true)
    (h3 : op 3 = Except.ok a) :
    runRetry cl op mb bf rand rc fuel = ⟨Except.ok b, [], 1⟩
    ∧ wrapper cl op mb bf mr rand =
        ⟨Except.ok a, [jitteredDelay mb bf 1 (rand 1), jitteredDelay mb bf 2 (rand 2)], 3⟩ := by
  refine ⟨runRetry_ok cl op mb bf rand rc fuel hrc, ?_⟩
  obtain ⟨k, hk⟩ : ∃ k, (mr - 1).toNat = k + 2 := ⟨(mr - 1).toNat - 2, by omega⟩
  rw [wrapper, hk]
  have h3run : runRetry cl op mb bf rand 3 k = ⟨Except.ok a, [], 1⟩ :=
    runRetry_ok cl op mb bf rand 3 k h3
  simp [runRetry, h1, hc1, h2, hc2, h3run]

/-- C6 witness: an operation failing retryably on attempts 1 and 2 and
succeeding with 99 from attempt 3 on, maxRetry 3. -/
theorem success_immediate_c6_witness :
    runRetry alwaysTrue failTwiceOp 20 3 zeroRand 3 5 = ⟨Except.ok 99, [], 1⟩
    ∧ wrapper alwaysTrue failTwiceOp 20 3 3 zeroRand =
        ⟨Except.ok 99,
         [jitteredDelay 20 3 1 (zeroRand 1), jitteredDelay 20 3 2 (zeroRand 2)], 3⟩ :=
  success_immediate_c6 alwaysTrue failTwiceOp 20 3 zeroRand 3 5 3 1 2 99 99
    rfl (by norm_num) rfl rfl rfl rfl rfl

/-- C7 counterexample: out-of-range values of the expected type are NOT
replaced by the documented defaults — a negative maxRetry int is kept
verbatim, as is a negative backoffFactor float. -/
theorem out_of_range_kept_c7_counterexample :
    sanitizeMaxRetry (PyVal.pyInt (-5)) = -5
    ∧ sanitizeMaxRetry (PyVal.pyInt (-5)) ≠ MAX_RETRY
    ∧ sanitizeBackoffFactor (PyVal.pyFloat (-3)) = -3
    ∧ sanitizeBackoffFactor (PyVal.pyFloat (-3)) ≠ (MAX_BACKOFF : ℚ) := by
  refine ⟨rfl, ?_, rfl, ?_⟩ <;> decide

/-- C7 (amended): the sanity check is a pure type/shape check — a wrong-typed
option is silently replaced by its documented default (backoffFactor and
maxBackoff default 20, maxRetry default 3) and construction is never rejected,
while a value of the expected type is used verbatim even when out of range. -/
theorem type_check_defaults_c7 (x : ℚ) (n m : ℤ) (v w u : PyVal)
    (hv : isPyFloat v = false) (hw : isPyIntLike w = false)
    (hu : isPyIntLike u = false) :
    sanitizeBackoffFactor (PyVal.pyFloat x) = x
    ∧ sanitizeBackoffFactor v = (MAX_BACKOFF : ℚ)
    ∧ sanitizeMaxBackoff (PyVal.pyInt n) = n
    ∧ sanitizeMaxBackoff w = MAX_BACKOFF
    ∧ sanitizeMaxRetry (PyVal.pyInt m) = m
    ∧ sanitizeMaxRetry u = MAX_RETRY := by
  refine ⟨rfl, ?_, rfl, ?_, rfl, ?_⟩
  · cases v <;> simp_all [isPyFloat, sanitizeBackoffFactor]
  · cases w <;> simp_all [isPyIntLike, sanitizeMaxBackoff]
  · cases u <;> simp_all [isPyIntLike, sanitizeMaxRetry]

/-- C7 witness: a fractional float backoffFactor is kept; an int backoffFactor
(the wrong type for the float check) becomes 20; an in-range int maxBackoff is
kept while a float one becomes 20; an out-of-range int maxRetry is kept while
a None one becomes 3. -/
theorem type_check_defaults_c7_witness :
    sanitizeBackoffFactor (PyVal.pyFloat (13 / 10)) = 13 / 10
    ∧ sanitizeBackoffFactor (PyVal.pyInt 3) = (MAX_BACKOFF : ℚ)
    ∧ sanitizeMaxBackoff (PyVal.pyInt 7) = 7
    ∧ sanitizeMaxBackoff (PyVal.pyFloat (1 / 2)) = MAX_BACKOFF
    ∧ sanitizeMaxRetry (PyVal.pyInt (-5)) = -5
    ∧ sanitizeMaxRetry PyVal.pyNone = MAX_RETRY :=
  type_check_defaults_c7 (13 / 10) 7 (-5) (PyVal.pyInt 3) (PyVal.pyFloat (1 / 2))
    PyVal.pyNone rfl rfl rfl

/-- C8: every run makes exactly one more call than it sleeps delays, the loop
body runs at most `maxRetry - 1` times, and the number of invocations — the
largest value reached by `request_count` — lies between 1 and `max 1 maxRetry`. -/
theorem attempt_budget_c8 (cl : ε → Bool) (op : ℕ → Except ε α) (mb bf : ℚ)
    (rand : ℕ → ℚ) (mr : ℤ) :
    (wrapper cl op mb bf mr rand).calls = (wrapper cl op mb bf mr rand).delays.length + 1
    ∧ (wrapper cl op mb bf mr rand).delays.length ≤ (mr - 1).toNat
    ∧ 1 ≤ (wrapper cl op mb bf mr rand).calls
    ∧ ((wrapper cl op mb bf mr rand).calls : ℤ) ≤ max 1 mr := by
  have h := runRetry_calls_len cl op mb bf rand (mr - 1).toNat 1
  rw [wrapper]
  refine ⟨h.1, h.2, by omega, ?_⟩
  have h1 := h.1
  have h2 := h.2
  rcases le_total mr 1 with hmr | hmr
  · rw [max_eq_left hmr]
    omega
  · rw [max_eq_right hmr]
    omega

/-- C9: under CPython's semantics of line 68 the delay computation is not
total, contradicting the spec's requirement that it never overflow however
large the attempt number: with the module's own backoff factor 4.5 and
maxBackoff 20, attempt number 1024 makes `backoff_factor * 2 ** request_count`
convert the exact int `2 ^ 1024` to a double, which overflows (OverflowError,
here `none`) before the maxBackoff cap is applied — while at attempt number
1023 the conversion still succeeds and the cap yields exactly 20. -/
theorem overflow_at_large_attempt_c9 :
    computedDelayF 20 (9 / 2) 1024 = none
    ∧ computedDelayF 20 (9 / 2) 1023 = some 20 := by
  constructor
  · have p1 : roundB64 ((2 : ℚ) ^ (1024 : ℕ)) = 2 ^ (1024 : ℕ) := by
      refine roundB64_exact (e := 1024) (n := 2 ^ 52) ?_ ?_ ?_ <;> norm_num
    show (if roundB64 ((2 : ℚ) ^ (1024 : ℕ)) < 2 ^ (1024 : ℕ) then
      some (min 20 (roundB64 (9 / 2 * roundB64 ((2 : ℚ) ^ (1024 : ℕ))))) else none) = none
    rw [p1, if_neg (lt_irrefl _)]
  · have p1 : roundB64 ((2 : ℚ) ^ (1023 : ℕ)) = 2 ^ (1023 : ℕ) := by
      refine roundB64_exact (e := 1023) (n := 2 ^ 52) ?_ ?_ ?_ <;> norm_num
    have p2 : roundB64 ((9 : ℚ) / 2 * 2 ^ (1023 : ℕ)) = (9 : ℚ) / 2 * 2 ^ (1023 : ℕ) := by
      refine roundB64_exact (e := 1025) (n := 9 * 2 ^ 49) ?_ ?_ ?_ <;> norm_num
    show (if roundB64 ((2 : ℚ) ^ (1023 : ℕ)) < 2 ^ (1024 : ℕ) then
      some (min 20 (roundB64 (9 / 2 * roundB64 ((2 : ℚ) ^ (1023 : ℕ))))) else none) = some 20
    rw [p1, if_pos (by norm_num), p2, min_eq_left (by norm_num)]

/-- C10: the `exceptions` argument is captured verbatim by the decorator — the
sanity check never touches it, whatever dynamic value it is — and a decorated
call uses exactly that value in the except clause of every retried attempt. -/
theorem classifier_verbatim_c10 (exc bf mr mb : PyVal)
    (matcher : PyVal → ε → Bool) (op : ℕ → Except ε α) (rand : ℕ → ℚ) :
    (retryConfig exc bf mr mb).exceptions = exc
    ∧ runDecorated (retryConfig exc bf mr mb) matcher op rand
        = wrapper (matcher exc) op ((sanitizeMaxBackoff mb : ℚ))
            (sanitizeBackoffFactor bf) (sanitizeMaxRetry mr) rand :=
  ⟨rfl, rfl⟩

end RetryDecorator
